import Mathlib

/-
Verification development for the structured elicitation and extraction engine:
the conversation session (requirements gathering), the tolerant JSON decode
used by the structured extractors, and the artifact generation pipeline.
Definitions are shallow embeddings of the Python source in src/modules.
-/

set_option maxRecDepth 16000

/- JSON values as produced by a strict structured-data parse (json.loads).
Numeric literals are kept as their source text; Python would convert them to
int/float, a distinction no modelled operation inspects. -/
inductive JValue where
  | null
  | bool (b : Bool)
  | num (lit : String)
  | str (s : String)
  | arr (elems : List JValue)
  | obj (fields : List (String × JValue))

/- Character-list string primitives.  The embedding works on character lists
so that every operation reduces inside the kernel; each mirrors the Python
string method named in its comment. -/

def charsLeadWith : List Char → List Char → Bool
  | [], _ => true
  | _ :: _, [] => false
  | p :: ps, c :: cs => p = c && charsLeadWith ps cs

/- str.startswith -/
def strLeadsWith (s pat : String) : Bool := charsLeadWith pat.data s.data

/- Consume pat from the head of the text, yielding the remainder. -/
def chopLead : List Char → List Char → Option (List Char)
  | [], text => some text
  | _ :: _, [] => none
  | p :: ps, c :: cs => if p = c then chopLead ps cs else none

/- str.split(sep) with a non-empty separator.  The fuel exceeds the input
length, and every step consumes at least one character. -/
def splitCharsAux (sep : List Char) : Nat → List Char → List (List Char)
  | 0, _ => [[]]
  | _, [] => [[]]
  | fuel + 1, c :: cs =>
    match sep, chopLead sep (c :: cs) with
    | _ :: _, some rest => [] :: splitCharsAux sep fuel rest
    | _, _ =>
      match splitCharsAux sep fuel cs with
      | [] => [[c]]
      | g :: gs => (c :: g) :: gs

def splitChars (sep text : List Char) : List (List Char) :=
  splitCharsAux sep (text.length + 1) text

def strSplitOn (s sep : String) : List String :=
  (splitChars sep.data s.data).map String.mk

/- Whitespace stripped by str.strip() -/
def isPyWs (c : Char) : Bool :=
  c = ' ' || c = '\t' || c = '\n' || c = '\r' || c = '\x0b' || c = '\x0c'

/- str.strip() -/
def strTrim (s : String) : String :=
  String.mk (((s.data.dropWhile isPyWs).reverse.dropWhile isPyWs).reverse)

/- s[n:] -/
def strDropChars (s : String) (n : Nat) : String := String.mk (s.data.drop n)

def isWsChar (c : Char) : Bool := [' ', '\n', '\r', '\t'].contains c

def skipWs (cs : List Char) : List Char := cs.dropWhile isWsChar

def isDigitChar (c : Char) : Bool := c.isDigit

def takeDigits (cs : List Char) : (List Char × List Char) :=
  (cs.takeWhile isDigitChar, cs.dropWhile isDigitChar)

def parseIntPart : List Char → Option (List Char × List Char)
  | [] => none
  | c :: cs =>
    if c = '0' then some ([c], cs)
    else if isDigitChar c then
      let p := takeDigits cs
      some (c :: p.1, p.2)
    else none

def parseFracPart : List Char → (List Char × List Char)
  | '.' :: cs =>
    match takeDigits cs with
    | ([], _) => ([], '.' :: cs)
    | (ds, rest) => ('.' :: ds, rest)
  | cs => ([], cs)

def parseExpPart : List Char → (List Char × List Char)
  | [] => ([], [])
  | c :: cs =>
    if c = 'e' || c = 'E' then
      match cs with
      | [] => ([], [c])
      | s :: cs2 =>
        if s = '+' || s = '-' then
          match takeDigits cs2 with
          | ([], _) => ([], c :: s :: cs2)
          | (ds, rest) => (c :: s :: ds, rest)
        else
          match takeDigits cs with
          | ([], _) => ([], c :: cs)
          | (ds, rest) => (c :: ds, rest)
    else ([], c :: cs)

def parseNumber (cs : List Char) : Option (List Char × List Char) :=
  match cs with
  | '-' :: cs2 =>
    (parseIntPart cs2).map (fun p =>
      let q := parseFracPart p.2
      let r := parseExpPart q.2
      ('-' :: (p.1 ++ q.1 ++ r.1), r.2))
  | _ =>
    (parseIntPart cs).map (fun p =>
      let q := parseFracPart p.2
      let r := parseExpPart q.2
      (p.1 ++ q.1 ++ r.1, r.2))

def hexDigitVal (c : Char) : Option Nat :=
  let n := c.toNat
  if 48 ≤ n && n < 58 then some (n - 48)
  else if 97 ≤ n && n < 103 then some (n - 87)
  else if 65 ≤ n && n < 71 then some (n - 55)
  else none

def escChar : Char → Option Char
  | 'n' => some '\n'
  | 't' => some '\t'
  | 'r' => some '\r'
  | 'b' => some (Char.ofNat 8)
  | 'f' => some (Char.ofNat 12)
  | '/' => some '/'
  | '"' => some '"'
  | '\\' => some '\\'
  | _ => none

/- String body after the opening quote.  Raw control characters are rejected
(strict mode of the source decoder).  Lone surrogate escapes decode to the
null character here where Python would combine surrogate pairs; no modelled
input uses surrogates. -/
def parseStringBody : List Char → Option (List Char × List Char)
  | [] => none
  | '"' :: cs => some ([], cs)
  | '\\' :: 'u' :: h1 :: h2 :: h3 :: h4 :: rest => do
      let v1 ← hexDigitVal h1
      let v2 ← hexDigitVal h2
      let v3 ← hexDigitVal h3
      let v4 ← hexDigitVal h4
      let p ← parseStringBody rest
      pure (Char.ofNat (((v1 * 16 + v2) * 16 + v3) * 16 + v4) :: p.1, p.2)
  | '\\' :: e :: cs => do
      let d ← escChar e
      let p ← parseStringBody cs
      pure (d :: p.1, p.2)
  | c :: cs =>
      if c.toNat < 32 then none
      else do
        let p ← parseStringBody cs
        pure (c :: p.1, p.2)

mutual

def parseValue : Nat → List Char → Option (JValue × List Char)
  | 0, _ => none
  | fuel + 1, cs =>
    match skipWs cs with
    | '"' :: rest => (parseStringBody rest).map (fun p => (JValue.str (String.mk p.1), p.2))
    | '\x7b' :: rest => (parseObj fuel rest).map (fun p => (JValue.obj p.1, p.2))
    | '[' :: rest => (parseArr fuel rest).map (fun p => (JValue.arr p.1, p.2))
    | 't' :: 'r' :: 'u' :: 'e' :: rest => some (JValue.bool true, rest)
    | 'f' :: 'a' :: 'l' :: 's' :: 'e' :: rest => some (JValue.bool false, rest)
    | 'n' :: 'u' :: 'l' :: 'l' :: rest => some (JValue.null, rest)
    | 'N' :: 'a' :: 'N' :: rest => some (JValue.num "NaN", rest)
    | 'I' :: 'n' :: 'f' :: 'i' :: 'n' :: 'i' :: 't' :: 'y' :: rest =>
        some (JValue.num "Infinity", rest)
    | '-' :: 'I' :: 'n' :: 'f' :: 'i' :: 'n' :: 'i' :: 't' :: 'y' :: rest =>
        some (JValue.num "-Infinity", rest)
    | rest => (parseNumber rest).map (fun p => (JValue.num (String.mk p.1), p.2))

def parseArr : Nat → List Char → Option (List JValue × List Char)
  | 0, _ => none
  | fuel + 1, cs =>
    match skipWs cs with
    | ']' :: rest => some ([], rest)
    | cs2 => do
      let p ← parseValue fuel cs2
      let q ← parseArrRest fuel p.2
      pure (p.1 :: q.1, q.2)

def parseArrRest : Nat → List Char → Option (List JValue × List Char)
  | 0, _ => none
  | fuel + 1, cs =>
    match skipWs cs with
    | ']' :: rest => some ([], rest)
    | ',' :: cs2 => do
      let p ← parseValue fuel cs2
      let q ← parseArrRest fuel p.2
      pure (p.1 :: q.1, q.2)
    | _ => none

def parseObj : Nat → List Char → Option (List (String × JValue) × List Char)
  | 0, _ => none
  | fuel + 1, cs =>
    match skipWs cs with
    | '\x7d' :: rest => some ([], rest)
    | cs2 => do
      let p ← parseMember fuel cs2
      let q ← parseObjRest fuel p.2
      pure (p.1 :: q.1, q.2)

def parseObjRest : Nat → List Char → Option (List (String × JValue) × List Char)
  | 0, _ => none
  | fuel + 1, cs =>
    match skipWs cs with
    | '\x7d' :: rest => some ([], rest)
    | ',' :: cs2 => do
      let p ← parseMember fuel cs2
      let q ← parseObjRest fuel p.2
      pure (p.1 :: q.1, q.2)
    | _ => none

def parseMember : Nat → List Char → Option ((String × JValue) × List Char)
  | 0, _ => none
  | fuel + 1, cs =>
    match skipWs cs with
    | '"' :: rest => do
      let p ← parseStringBody rest
      match skipWs p.2 with
      | ':' :: cs2 => do
        let q ← parseValue fuel cs2
        pure ((String.mk p.1, q.1), q.2)
      | _ => none
    | _ => none

end

/- Strict whole-text parse, as json.loads: the entire input, up to surrounding
whitespace, must be one value.  The fuel bound exceeds any possible recursion
depth, since every two fuel units consume at least one input character. -/
def jsonLoads (s : String) : Option JValue :=
  match parseValue (2 * s.data.length + 2) s.data with
  | some (v, rest) => if skipWs rest = [] then some v else none
  | none => none

/- Markdown code-fence stripping applied by both extractors before parsing
(requirements.py lines 153-157, user_stories.py lines 123-127): on text that
begins with a fence, take the first fenced segment, drop a leading "json"
language tag, and trim.  The input is already trimmed by the caller. -/
def stripCodeFence (t : String) : String :=
  if strLeadsWith t "```" then
    let seg :=
      match strSplitOn t "```" with
      | _ :: s :: _ => s
      | _ => ""
    let seg2 := if strLeadsWith seg "json" then strDropChars seg 4 else seg
    strTrim seg2
  else t

/- Conversation model.  Roles: asker = the "assistant" role (the model asks
the questions), responder = the "user" role. -/
inductive Role where
  | asker
  | responder
deriving DecidableEq

structure Turn where
  role : Role
  content : String
deriving DecidableEq

/- Failures of the external Model Gateway (the remote service client). -/
inductive GwError where
  | authentication_error
  | rate_limit_error
  | network_error
  | service_error
deriving DecidableEq

/- Model Gateway contract: system instruction, ordered messages, output-size
ceiling; returns one generated utterance or fails. -/
def Gateway : Type := String → List Turn → Nat → Except GwError String

def const_gateway (reply : String) : Gateway := fun _ _ _ => Except.ok reply

def total_gateway (g : String → List Turn → Nat → String) : Gateway :=
  fun sys msgs mt => Except.ok (g sys msgs mt)

def failing_gateway (e : GwError) : Gateway := fun _ _ _ => Except.error e

/- RequirementsGatherer session state (requirements.py lines 20-42). -/
structure SessionState where
  project_name : String
  project_description : String
  system_prompt : String
  conversation_history : List Turn
deriving DecidableEq

/- The session system prompt built once by start_session (lines 27-40). -/
def system_prompt_text (project_name project_description : String) : String :=
  "You are an expert software requirements analyst. Your task is to gather comprehensive requirements for a software project through an interactive conversation.\n\n"
  ++ "Project: " ++ project_name ++ "\n"
  ++ "Description: " ++ project_description ++ "\n\n"
  ++ "Your goal is to ask exactly 8 focused, insightful questions to understand:\n"
  ++ "- Key functional requirements (what the system should do)\n"
  ++ "- Non-functional requirements (performance, security, usability, etc.)\n"
  ++ "- Technical constraints (platforms, technologies, limitations)\n"
  ++ "- User needs and use cases\n\n"
  ++ "Ask one question at a time. Make each question clear, specific, and relevant to the project context. Build upon previous answers to ask progressively deeper questions.\n\n"
  ++ "After all 8 questions are answered, you will extract and categorize the requirements."

def start_session (project_name project_description : String) : SessionState :=
  { project_name := project_name
    project_description := project_description
    system_prompt := system_prompt_text project_name project_description
    conversation_history := [] }

def is_asker (t : Turn) : Bool :=
  match t.role with
  | Role.asker => true
  | Role.responder => false

/- Count of asker turns, as the source counts "assistant" messages
(requirements.py line 55). -/
def asker_count (h : List Turn) : Nat := (h.filter is_asker).length

/- The `if user_response:` truthiness append (lines 48-52): a None or empty
answer is not appended. -/
def append_answer (h : List Turn) (user_response : Option String) : List Turn :=
  match user_response with
  | none => h
  | some r => if r = "" then h else h ++ [⟨Role.responder, r⟩]

/- Turn-specific instruction (lines 61-68). -/
def question_prompt (st : SessionState) (question_number : Nat) : String :=
  if question_number = 1 then
    "This is a requirements gathering session for: " ++ st.project_name ++ "\n\n"
    ++ "Description: " ++ st.project_description ++ "\n\n"
    ++ "Ask your first question (1 of 8) to gather important requirements. Be specific and relevant to this project."
  else
    "Based on the previous answer, ask your next question (" ++ toString question_number
    ++ " of 8). Build upon what you\x27ve learned so far."

structure AskResult where
  result : Except GwError (Option String)
  state : SessionState
  gateway_calls : Nat

/- RequirementsGatherer.ask_next_question (lines 44-98).  The transient
instruction is sent as a responder ("user") message but never appended to the
persistent history.  A gateway failure propagates after the answer has
already been appended (the source mutates in place before the call). -/
def ask_next_question (gw : Gateway) (st : SessionState) (user_response : Option String) :
    AskResult :=
  let h := append_answer st.conversation_history user_response
  let question_number := asker_count h + 1
  if question_number > 8 then
    ⟨Except.ok none, { st with conversation_history := h }, 0⟩
  else
    let prompt := question_prompt st question_number
    match gw st.system_prompt (h ++ [⟨Role.responder, prompt⟩]) 500 with
    | Except.error e => ⟨Except.error e, { st with conversation_history := h }, 1⟩
    | Except.ok assistant_message =>
      ⟨Except.ok (some assistant_message),
       { st with conversation_history := h ++ [⟨Role.asker, assistant_message⟩] }, 1⟩

/- The extraction instruction (lines 103-127). -/
def extraction_prompt : String :=
  "Based on the entire conversation above, extract all requirements and categorize them.\n\n"
  ++ "Return your response as a JSON object with this exact structure:\n"
  ++ "\x7b\n"
  ++ "    \"functional\": [\n"
  ++ "        \"requirement description 1\",\n"
  ++ "        \"requirement description 2\"\n"
  ++ "    ],\n"
  ++ "    \"non_functional\": [\n"
  ++ "        \"requirement description 1\",\n"
  ++ "        \"requirement description 2\"\n"
  ++ "    ],\n"
  ++ "    \"constraints\": [\n"
  ++ "        \"constraint description 1\",\n"
  ++ "        \"constraint description 2\"\n"
  ++ "    ]\n"
  ++ "\x7d\n\n"
  ++ "Ensure each requirement is:\n"
  ++ "- Clear and specific\n"
  ++ "- Actionable\n"
  ++ "- Derived from the conversation\n"
  ++ "- Properly categorized\n\n"
  ++ "Return ONLY the JSON object, no additional text."

/- The all-empty fallback structure (lines 165-169). -/
def fallback_requirements : JValue :=
  JValue.obj
    [("functional", JValue.arr []),
     ("non_functional", JValue.arr []),
     ("constraints", JValue.arr [])]

structure ExtractResult where
  result : Except GwError JValue
  logged_raw : Option String
  gateway_calls : Nat

/- RequirementsGatherer.extract_requirements (lines 100-169).  On decode
failure the raw (fence-stripped) text is logged and the fallback returned;
gateway failures propagate. -/
def extract_requirements (gw : Gateway) (st : SessionState) : ExtractResult :=
  match gw st.system_prompt
      (st.conversation_history ++ [⟨Role.responder, extraction_prompt⟩]) 2000 with
  | Except.error e => ⟨Except.error e, none, 1⟩
  | Except.ok reply =>
    let requirements_json := stripCodeFence (strTrim reply)
    match jsonLoads requirements_json with
    | some requirements => ⟨Except.ok requirements, none, 1⟩
    | none => ⟨Except.ok fallback_requirements, some requirements_json, 1⟩

/- Driving a session: fold ask_next_question over a list of supplied answers
(mirrors the loop of main.py lines 76-93). -/
def run_calls (gw : Gateway) (st : SessionState) (answers : List (Option String)) :
    SessionState :=
  answers.foldl (fun s a => (ask_next_question gw s a).state) st

/- Record store model (storage.py).  Only the operations the generators use
are embedded: get_project and add_design_artifact. -/
structure Requirement where
  category : String
  description : String
deriving DecidableEq

structure DesignArtifact where
  artifact_type : String
  content : String
deriving DecidableEq

structure Project where
  id : Nat
  name : String
  description : String
  requirements : List Requirement
  design_artifacts : List DesignArtifact
deriving DecidableEq

structure Database where
  projects : List Project
deriving DecidableEq

def get_project (db : Database) (project_id : Nat) : Option Project :=
  db.projects.find? (fun p => p.id == project_id)

def add_design_artifact (db : Database) (project_id : Nat)
    (artifact_type content : String) : Database :=
  ⟨db.projects.map (fun p =>
    if p.id == project_id then
      { p with design_artifacts := p.design_artifacts ++ [⟨artifact_type, content⟩] }
    else p)⟩

/- _format_requirements, identical in design.py (lines 30-56) and
user_stories.py (lines 28-54). -/
def numbered_descriptions (rs : List Requirement) : List String :=
  rs.enum.map (fun p => toString (p.1 + 1) ++ ". " ++ p.2.description)

def format_requirements (requirements : List Requirement) : String :=
  let functional := requirements.filter (fun r => r.category == "functional")
  let non_functional := requirements.filter (fun r => r.category == "non_functional")
  let constraints := requirements.filter (fun r => r.category == "constraint")
  let part1 :=
    if functional.isEmpty then []
    else ["FUNCTIONAL REQUIREMENTS:"] ++ numbered_descriptions functional ++ [""]
  let part2 :=
    if non_functional.isEmpty then []
    else ["NON-FUNCTIONAL REQUIREMENTS:"] ++ numbered_descriptions non_functional ++ [""]
  let part3 :=
    if constraints.isEmpty then []
    else ["CONSTRAINTS:"] ++ numbered_descriptions constraints ++ [""]
  String.intercalate "\n" (part1 ++ part2 ++ part3)

/- The seven DesignGenerator methods of design.py are textually identical in
control flow and differ only in prompt text, output ceiling, artifact type
tag and precondition message; they are embedded as one function over this
type-indexed data. -/
inductive DesignType where
  | complete_system_design
  | architecture
  | data_model
  | api_specification
  | technology_stack
  | implementation_plan
  | mermaid_diagrams
  | architecture_recommendations
deriving DecidableEq

def design_max_tokens : DesignType → Nat
  | DesignType.complete_system_design => 8000
  | DesignType.architecture => 4000
  | DesignType.data_model => 4000
  | DesignType.api_specification => 4000
  | DesignType.technology_stack => 3000
  | DesignType.implementation_plan => 3000
  | DesignType.mermaid_diagrams => 4000
  | DesignType.architecture_recommendations => 6000

def artifact_type_tag : DesignType → String
  | DesignType.complete_system_design => "complete_system_design"
  | DesignType.architecture => "architecture"
  | DesignType.data_model => "data_model"
  | DesignType.api_specification => "api_specification"
  | DesignType.technology_stack => "technology_stack"
  | DesignType.implementation_plan => "implementation_plan"
  | DesignType.mermaid_diagrams => "mermaid_diagrams"
  | DesignType.architecture_recommendations => "architecture_recommendations"

def no_requirements_message : DesignType → String
  | DesignType.complete_system_design =>
      "Cannot generate design: No requirements found for this project"
  | DesignType.architecture => "Cannot generate architecture: No requirements found"
  | DesignType.data_model => "Cannot generate data model: No requirements found"
  | DesignType.api_specification => "Cannot generate API spec: No requirements found"
  | DesignType.technology_stack => "Cannot generate tech stack: No requirements found"
  | DesignType.implementation_plan =>
      "Cannot generate implementation plan: No requirements found"
  | DesignType.mermaid_diagrams => "Cannot generate diagrams: No requirements found"
  | DesignType.architecture_recommendations =>
      "Cannot generate architecture recommendations: No requirements found"

def design_system_prompt : DesignType → String
  | DesignType.complete_system_design =>
      "You are an expert software architect and system designer. Your task is to create a comprehensive, professional system design based on the provided requirements.\n\n"
      ++ "Your design should be:\n- Practical and implementable\n- Well-structured and organized\n- Technically sound\n- Aligned with modern best practices\n- Detailed enough for developers to implement\n\n"
      ++ "Format your response as a complete system design document in markdown."
  | DesignType.architecture =>
      "You are an expert software architect. Create a detailed system architecture design based on the requirements provided."
  | DesignType.data_model =>
      "You are an expert database architect. Design a comprehensive data model based on the requirements."
  | DesignType.api_specification =>
      "You are an expert API designer. Create a comprehensive API specification based on the requirements."
  | DesignType.technology_stack =>
      "You are an expert technology consultant. Recommend an appropriate technology stack based on the requirements."
  | DesignType.implementation_plan =>
      "You are an expert project manager and technical lead. Create a practical implementation roadmap."
  | DesignType.mermaid_diagrams =>
      "You are an expert system architect. Create comprehensive Mermaid diagrams to visualize the system design.\n\n"
      ++ "Mermaid is a markdown-based diagramming language. Use proper Mermaid syntax for all diagrams."
  | DesignType.architecture_recommendations =>
      "You are a senior software architect with expertise in system design patterns, cloud architecture, and best practices. Provide detailed, actionable architecture recommendations."

def design_user_header : DesignType → String
  | DesignType.complete_system_design =>
      "Create a comprehensive system design for the following project:"
  | DesignType.architecture => "Design a system architecture for:"
  | DesignType.data_model => "Design a data model for:"
  | DesignType.api_specification => "Design an API specification for:"
  | DesignType.technology_stack => "Recommend a technology stack for:"
  | DesignType.implementation_plan => "Create an implementation plan for:"
  | DesignType.mermaid_diagrams => "Create Mermaid diagrams for:"
  | DesignType.architecture_recommendations =>
      "Provide comprehensive architecture recommendations for:"

def design_user_body : DesignType → String
  | DesignType.complete_system_design =>
      "Generate a complete system design document that includes:\n\n"
      ++ "1. SYSTEM ARCHITECTURE\n   - High-level architecture overview\n   - System components and their responsibilities\n   - Component interactions and data flow\n   - Architecture diagram description (in text/ASCII)\n\n"
      ++ "2. TECHNOLOGY STACK\n   - Recommended technologies for each layer\n   - Justification for technology choices\n   - Alternative options considered\n\n"
      ++ "3. DATA MODEL\n   - Database schema design\n   - Entity relationships\n   - Key data structures\n   - Data flow and storage strategy\n\n"
      ++ "4. API DESIGN\n   - API endpoints specification\n   - Request/response formats\n   - Authentication and authorization approach\n   - API versioning strategy\n\n"
      ++ "5. COMPONENT SPECIFICATIONS\n   - Detailed component breakdown\n   - Key classes/modules and their responsibilities\n   - Important algorithms or logic\n\n"
      ++ "6. SECURITY CONSIDERATIONS\n   - Security measures and best practices\n   - Data protection strategies\n   - Authentication/authorization details\n\n"
      ++ "7. DEPLOYMENT ARCHITECTURE\n   - Deployment model (cloud, on-premise, hybrid)\n   - Infrastructure requirements\n   - Scalability considerations\n   - Monitoring and logging strategy\n\n"
      ++ "8. IMPLEMENTATION ROADMAP\n   - Suggested phases for implementation\n   - Key milestones\n   - Dependencies between components\n\n"
      ++ "Provide a well-structured, detailed design document that a development team can use to implement the system."
  | DesignType.architecture =>
      "Provide:\n1. High-level architecture overview\n2. System components and their responsibilities\n3. Component interactions and communication patterns\n4. Data flow between components\n5. Architecture diagram description (text/ASCII format)\n6. Design patterns to be used\n7. Scalability and performance considerations\n\n"
      ++ "Format as a detailed architecture document."
  | DesignType.data_model =>
      "Provide:\n1. Entity-Relationship diagram (text/ASCII format)\n2. Detailed table/collection schemas\n3. Relationships and foreign keys\n4. Indexes for performance\n5. Data types and constraints\n6. Sample data structures\n7. Data validation rules\n\n"
      ++ "Format as a detailed data model specification."
  | DesignType.api_specification =>
      "Provide:\n1. API endpoint listing with HTTP methods\n2. Request/response formats (JSON examples)\n3. Authentication and authorization mechanism\n4. Error handling and status codes\n5. Rate limiting and pagination strategies\n6. API versioning approach\n7. Example request/response for key endpoints\n\n"
      ++ "Format as a detailed API specification document."
  | DesignType.technology_stack =>
      "Provide:\n1. Frontend technologies and frameworks\n2. Backend technologies and frameworks\n3. Database recommendations\n4. DevOps and deployment tools\n5. Third-party services and APIs\n6. Development tools and libraries\n7. Justification for each choice\n8. Alternative options considered\n\n"
      ++ "Format as a detailed technology stack recommendation."
  | DesignType.implementation_plan =>
      "Provide:\n1. Implementation phases (MVP, Phase 2, Phase 3, etc.)\n2. Features/components for each phase\n3. Dependencies between components\n4. Key milestones\n5. Recommended team structure\n6. Estimated complexity for each phase (High/Medium/Low)\n7. Risks and mitigation strategies\n\n"
      ++ "Format as a detailed implementation roadmap."
  | DesignType.mermaid_diagrams =>
      "Generate the following diagrams in Mermaid format:\n\n"
      ++ "1. **System Architecture Diagram** (C4 or component diagram)\n   - Show main system components\n   - Show data flow between components\n   - Include external systems/APIs\n\n"
      ++ "2. **Entity Relationship Diagram (ERD)**\n   - Show database entities\n   - Show relationships and cardinality\n   - Include key attributes\n\n"
      ++ "3. **Sequence Diagram** (for main user flow)\n   - Show interaction between components\n   - Show key processes/workflows\n\n"
      ++ "4. **Deployment Diagram**\n   - Show infrastructure components\n   - Show deployment architecture\n\n"
      ++ "For each diagram:\n- Provide a clear title and description\n- Use proper Mermaid syntax\n- Make it detailed and accurate\n- Add comments where helpful\n\n"
      ++ "Format your response with each diagram clearly labeled and separated."
  | DesignType.architecture_recommendations =>
      "Provide detailed recommendations covering:\n\n"
      ++ "1. **ARCHITECTURE PATTERNS**\n   - Recommended architectural style (microservices, monolith, serverless, etc.)\n   - Design patterns to use (MVC, MVVM, Repository, etc.)\n   - Justification for each choice\n\n"
      ++ "2. **LAYERING STRATEGY**\n   - Presentation layer approach\n   - Business logic layer design\n   - Data access layer strategy\n   - Cross-cutting concerns (logging, auth, etc.)\n\n"
      ++ "3. **SCALABILITY APPROACH**\n   - Horizontal vs vertical scaling strategy\n   - Caching strategy (where and what)\n   - Load balancing recommendations\n   - Database scaling approach\n\n"
      ++ "4. **RESILIENCE & RELIABILITY**\n   - Fault tolerance mechanisms\n   - Circuit breaker patterns\n   - Retry policies\n   - Disaster recovery approach\n\n"
      ++ "5. **PERFORMANCE OPTIMIZATION**\n   - Performance bottleneck mitigation\n   - Database query optimization strategies\n   - Caching layers\n   - CDN usage\n\n"
      ++ "6. **SECURITY ARCHITECTURE**\n   - Authentication/authorization strategy\n   - Data encryption (at rest and in transit)\n   - API security (rate limiting, API keys, OAuth)\n   - Security best practices\n\n"
      ++ "7. **INTEGRATION PATTERNS**\n   - How to integrate with external systems\n   - API gateway usage\n   - Message queues/event bus\n   - Data synchronization strategies\n\n"
      ++ "8. **MONITORING & OBSERVABILITY**\n   - Logging strategy and tools\n   - Metrics and monitoring\n   - Distributed tracing\n   - Alerting strategy\n\n"
      ++ "9. **CLOUD ARCHITECTURE** (if applicable)\n   - Cloud provider recommendations\n   - Specific cloud services to use\n   - Multi-cloud vs single-cloud\n   - Cost optimization strategies\n\n"
      ++ "10. **TRADE-OFFS & DECISIONS**\n    - Key architectural decisions\n    - Trade-offs considered\n    - Why certain approaches were chosen over alternatives\n\n"
      ++ "Provide specific, actionable recommendations with clear reasoning."

def design_user_prompt (t : DesignType) (name description req_text : String) : String :=
  design_user_header t ++ "\n\nPROJECT: " ++ name ++ "\nDESCRIPTION: " ++ description
  ++ "\n\n" ++ req_text ++ "\n\n" ++ design_user_body t

/- Failures of a generation call.  missing_project models the AttributeError
Python raises when the reloaded project is gone; attribute_error and
type_error model the exceptions of _format_stories_for_display on non-story
JSON (they are not caught by the source). -/
inductive GenError where
  | missing_project
  | no_requirements (msg : String)
  | gateway (e : GwError)
  | attribute_error
  | type_error
deriving DecidableEq

structure GenResult where
  result : Except GenError String
  db : Database
  gateway_calls : Nat

/- DesignGenerator.generate_* (design.py lines 58-628): reload the project,
require at least one requirement, issue one gateway call, persist the raw
text as one artifact, and return the raw text. -/
def generate_design (t : DesignType) (gw : Gateway) (project_id : Nat) (db : Database) :
    GenResult :=
  match get_project db project_id with
  | none => ⟨Except.error GenError.missing_project, db, 0⟩
  | some project =>
    if project.requirements.isEmpty then
      ⟨Except.error (GenError.no_requirements (no_requirements_message t)), db, 0⟩
    else
      let requirements_text := format_requirements project.requirements
      match gw (design_system_prompt t)
          [⟨Role.responder, design_user_prompt t project.name project.description requirements_text⟩]
          (design_max_tokens t) with
      | Except.error e => ⟨Except.error (GenError.gateway e), db, 1⟩
      | Except.ok content =>
        ⟨Except.ok content, add_design_artifact db project_id (artifact_type_tag t) content, 1⟩

/- Python str() / repr() of decoded JSON values, used by the f-strings of
_format_stories_for_display.  Float normalization of numeric literals is not
reproduced (the story fields are strings in every modelled input). -/
mutual

def pyStr : JValue → String
  | JValue.str s => s
  | v => pyRepr v

def pyRepr : JValue → String
  | JValue.null => "None"
  | JValue.bool true => "True"
  | JValue.bool false => "False"
  | JValue.num lit => lit
  | JValue.str s => "\x27" ++ s ++ "\x27"
  | JValue.arr xs => "[" ++ String.intercalate ", " (pyReprList xs) ++ "]"
  | JValue.obj fs => "\x7b" ++ String.intercalate ", " (pyReprFields fs) ++ "\x7d"

def pyReprList : List JValue → List String
  | [] => []
  | x :: xs => pyRepr x :: pyReprList xs

def pyReprFields : List (String × JValue) → List String
  | [] => []
  | kv :: kvs => ("\x27" ++ kv.1 ++ "\x27: " ++ pyRepr kv.2) :: pyReprFields kvs

end

/- dict.get on a decoded JSON object (duplicate keys: the last wins, as in a
Python dict built by json.loads). -/
def jget (v : JValue) (k : String) : Option JValue :=
  match v with
  | JValue.obj fs => ((fs.reverse).find? (fun kv => kv.1 == k)).map (fun kv => kv.2)
  | _ => none

/- story.get(k, default-string) rendered through an f-string. -/
def jgetD (v : JValue) (k dflt : String) : String :=
  match jget v k with
  | some x => pyStr x
  | none => dflt

/- Python truthiness of a decoded JSON value (numeric zero detection ignores
a zero mantissa under a nonzero exponent, a case no modelled input has). -/
def py_truthy : JValue → Bool
  | JValue.null => false
  | JValue.bool b => b
  | JValue.num lit => lit.data.any (fun c => '1' ≤ c && c ≤ '9')
  | JValue.str s => !(s.data.isEmpty)
  | JValue.arr xs => !xs.isEmpty
  | JValue.obj fs => !fs.isEmpty

/- Iterating a decoded JSON value in a for loop: lists yield elements, dicts
yield their keys, strings yield one-character strings, anything else raises
TypeError. -/
def py_iter_elems : JValue → Except GenError (List JValue)
  | JValue.arr xs => Except.ok xs
  | JValue.obj fs => Except.ok (fs.map (fun kv => JValue.str kv.1))
  | JValue.str s => Except.ok (s.data.map (fun c => JValue.str (String.mk [c])))
  | _ => Except.error GenError.type_error

def eighty_equals : String := String.mk (List.replicate 80 '=')

/- One story block of _format_stories_for_display (user_stories.py lines
152-168).  A non-dict story raises AttributeError at the first .get. -/
def format_story_lines (story : JValue) : Except GenError (List String) :=
  match story with
  | JValue.obj _ =>
    match py_iter_elems
        (match jget story "acceptance_criteria" with
         | some v => v
         | none => JValue.arr []) with
    | Except.error e => Except.error e
    | Except.ok crits =>
      let crit_lines := crits.enum.map (fun p =>
        "  " ++ toString (p.1 + 1) ++ ". " ++ pyStr p.2)
      let notes_lines :=
        match jget story "notes" with
        | some v => if py_truthy v then ["\nNotes:", "  " ++ pyStr v] else []
        | none => []
      Except.ok
        (["ID: " ++ jgetD story "id" "N/A",
          "Title: " ++ jgetD story "title" "N/A",
          "Epic: " ++ jgetD story "epic" "N/A",
          "Priority: " ++ jgetD story "priority" "N/A",
          "Story Points: " ++ jgetD story "story_points" "N/A",
          "\nUser Story:",
          "  " ++ jgetD story "user_story" "N/A",
          "\nDescription:",
          "  " ++ jgetD story "description" "N/A",
          "\nAcceptance Criteria:"]
         ++ crit_lines ++ notes_lines ++ ["\n" ++ eighty_equals ++ "\n"])
  | _ => Except.error GenError.attribute_error

/- The per-story loop of _format_stories_for_display: the first exception
propagates, otherwise the line blocks are collected in order. -/
def story_blocks : List JValue → Except GenError (List (List String))
  | [] => Except.ok []
  | x :: xs =>
    match format_story_lines x with
    | Except.error e => Except.error e
    | Except.ok y =>
      match story_blocks xs with
      | Except.error e => Except.error e
      | Except.ok ys => Except.ok (y :: ys)

/- _format_stories_for_display (lines 148-170), iterating whatever json.loads
produced: an empty dict or empty string iterates zero times and yields "";
non-empty dicts and strings yield string elements whose .get raises
AttributeError; non-iterable values raise TypeError. -/
def format_stories_for_display (user_stories : JValue) : Except GenError String :=
  match py_iter_elems user_stories with
  | Except.error e => Except.error e
  | Except.ok elems =>
    match story_blocks elems with
    | Except.error e => Except.error e
    | Except.ok blocks => Except.ok (String.intercalate "\n" blocks.flatten)

def user_stories_system_prompt : String :=
  "You are an expert Agile product owner and business analyst. Generate comprehensive user stories with detailed acceptance criteria.\n\n"
  ++ "Return your response as a JSON array of user stories. Each story must follow this exact structure:\n"
  ++ "\x7b\n"
  ++ "    \"id\": \"US-001\",\n"
  ++ "    \"title\": \"Short descriptive title\",\n"
  ++ "    \"user_story\": \"As a [role], I want [feature] so that [benefit]\",\n"
  ++ "    \"description\": \"Detailed description of what needs to be built\",\n"
  ++ "    \"priority\": \"High|Medium|Low\",\n"
  ++ "    \"story_points\": \"1|2|3|5|8|13\",\n"
  ++ "    \"epic\": \"Epic name this story belongs to\",\n"
  ++ "    \"acceptance_criteria\": [\n"
  ++ "        \"Given [context], when [action], then [outcome]\",\n"
  ++ "        \"Given [context], when [action], then [outcome]\"\n"
  ++ "    ],\n"
  ++ "    \"notes\": \"Additional technical notes or dependencies\"\n"
  ++ "\x7d\n\n"
  ++ "Ensure all user stories are:\n- Written in proper user story format\n- Have clear, testable acceptance criteria\n- Prioritized appropriately\n- Estimated with story points\n- Grouped into logical epics"

def user_stories_user_prompt (name description req_text : String) : String :=
  "Generate comprehensive user stories for:\n\nPROJECT: " ++ name
  ++ "\nDESCRIPTION: " ++ description ++ "\n\n" ++ req_text ++ "\n\n"
  ++ "Create a complete set of user stories that cover all functional requirements. Include:\n"
  ++ "- Clear user story format (As a... I want... So that...)\n"
  ++ "- Detailed acceptance criteria in Given/When/Then format\n"
  ++ "- Appropriate priority (High/Medium/Low)\n"
  ++ "- Story point estimates\n"
  ++ "- Epic grouping\n"
  ++ "- Technical notes where relevant\n\n"
  ++ "Return ONLY a valid JSON array of user stories, no additional text."

structure UserStoriesResult where
  result : Except GenError JValue
  logged_raw : Option String
  db : Database
  gateway_calls : Nat

/- UserStoryGenerator.generate_user_stories (user_stories.py lines 56-146):
reload the project, require requirements, one gateway call, tolerant decode;
on decode failure log the raw text and return the empty list without saving;
on success format the stories (which can raise on non-story JSON), persist
the formatted text as one artifact, and return the decoded value. -/
def generate_user_stories (gw : Gateway) (project_id : Nat) (db : Database) :
    UserStoriesResult :=
  match get_project db project_id with
  | none => ⟨Except.error GenError.missing_project, none, db, 0⟩
  | some project =>
    if project.requirements.isEmpty then
      ⟨Except.error (GenError.no_requirements
        "Cannot generate user stories: No requirements found"), none, db, 0⟩
    else
      let requirements_text := format_requirements project.requirements
      match gw user_stories_system_prompt
          [⟨Role.responder, user_stories_user_prompt project.name project.description requirements_text⟩]
          6000 with
      | Except.error e => ⟨Except.error (GenError.gateway e), none, db, 1⟩
      | Except.ok reply =>
        let stories_json := stripCodeFence (strTrim reply)
        match jsonLoads stories_json with
        | none => ⟨Except.ok (JValue.arr []), some stories_json, db, 1⟩
        | some user_stories =>
          match format_stories_for_display user_stories with
          | Except.error e => ⟨Except.error e, none, db, 1⟩
          | Except.ok formatted_stories =>
            ⟨Except.ok user_stories, none,
             add_design_artifact db project_id "user_stories" formatted_stories, 1⟩

/- Helper lemmas about the session step. -/

@[simp] lemma is_asker_mk_asker (s : String) : is_asker ⟨Role.asker, s⟩ = true := rfl

@[simp] lemma is_asker_mk_responder (s : String) : is_asker ⟨Role.responder, s⟩ = false := rfl

lemma append_answer_extends (h : List Turn) (ans : Option String) :
    ∃ t, append_answer h ans = h ++ t := by
  cases ans with
  | none => exact ⟨[], by simp [append_answer]⟩
  | some r =>
    by_cases hr : r = ""
    · exact ⟨[], by simp [append_answer, hr]⟩
    · exact ⟨[⟨Role.responder, r⟩], by simp [append_answer, hr]⟩

lemma asker_count_append_answer (h : List Turn) (ans : Option String) :
    asker_count (append_answer h ans) = asker_count h := by
  cases ans with
  | none => rfl
  | some r =>
    by_cases hr : r = ""
    · simp [append_answer, hr]
    · simp [append_answer, hr, asker_count, List.filter_append]

lemma ask_over_bound (gw : Gateway) (st : SessionState) (ans : Option String)
    (hc : 8 ≤ asker_count st.conversation_history) :
    (ask_next_question gw st ans).result = Except.ok none ∧
    (ask_next_question gw st ans).gateway_calls = 0 ∧
    (ask_next_question gw st ans).state
      = { st with conversation_history := append_answer st.conversation_history ans } := by
  have hgt : asker_count (append_answer st.conversation_history ans) + 1 > 8 := by
    rw [asker_count_append_answer]; omega
  simp [ask_next_question, hgt]

lemma ask_under_bound_calls (gw : Gateway) (st : SessionState) (ans : Option String)
    (hc : asker_count st.conversation_history < 8) :
    (ask_next_question gw st ans).gateway_calls = 1 := by
  have hng : ¬ (asker_count (append_answer st.conversation_history ans) + 1 > 8) := by
    rw [asker_count_append_answer]; omega
  unfold ask_next_question
  simp only [hng, if_false]
  cases gw st.system_prompt
      (append_answer st.conversation_history ans
        ++ [⟨Role.responder, question_prompt st (asker_count (append_answer st.conversation_history ans) + 1)⟩]) 500 with
  | error e => rfl
  | ok m => rfl

lemma ask_under_bound_error (e : GwError) (st : SessionState) (ans : Option String)
    (hc : asker_count st.conversation_history < 8) :
    (ask_next_question (failing_gateway e) st ans).result = Except.error e ∧
    (ask_next_question (failing_gateway e) st ans).gateway_calls = 1 := by
  have hng : ¬ (asker_count (append_answer st.conversation_history ans) + 1 > 8) := by
    rw [asker_count_append_answer]; omega
  simp [ask_next_question, hng, failing_gateway]

lemma ask_next_question_under (gw : Gateway) (st : SessionState) (ans : Option String)
    (hc : asker_count st.conversation_history < 8) :
    ask_next_question gw st ans =
      match gw st.system_prompt
          (append_answer st.conversation_history ans
            ++ [⟨Role.responder, question_prompt st (asker_count st.conversation_history + 1)⟩]) 500 with
      | Except.error e =>
        ⟨Except.error e, { st with conversation_history := append_answer st.conversation_history ans }, 1⟩
      | Except.ok m =>
        ⟨Except.ok (some m),
         { st with conversation_history :=
             append_answer st.conversation_history ans ++ [⟨Role.asker, m⟩] }, 1⟩ := by
  have hng : ¬ (asker_count (append_answer st.conversation_history ans) + 1 > 8) := by
    rw [asker_count_append_answer]; omega
  unfold ask_next_question
  rw [if_neg hng, asker_count_append_answer]

lemma ask_history_extends (gw : Gateway) (st : SessionState) (ans : Option String) :
    ∃ tail, (ask_next_question gw st ans).state.conversation_history
      = st.conversation_history ++ tail := by
  obtain ⟨t0, ht0⟩ := append_answer_extends st.conversation_history ans
  by_cases hb : 8 ≤ asker_count st.conversation_history
  · rw [(ask_over_bound gw st ans hb).2.2]
    exact ⟨t0, by simp [ht0]⟩
  · push_neg at hb
    rw [ask_next_question_under gw st ans hb]
    cases hg : gw st.system_prompt
        (append_answer st.conversation_history ans
          ++ [⟨Role.responder, question_prompt st (asker_count st.conversation_history + 1)⟩]) 500 with
    | error e => exact ⟨t0, by simp [ht0]⟩
    | ok m => exact ⟨t0 ++ [⟨Role.asker, m⟩], by simp [ht0]⟩

/- Shared concrete stubs used by the witnesses. -/

def stub_gateway : Gateway := const_gateway "Q"

def stub_session : SessionState := start_session "p" "d"

def full_session : SessionState :=
  { start_session "p" "d" with
    conversation_history := (List.replicate 8 ([⟨Role.asker, "q"⟩, ⟨Role.responder, "a"⟩] : List Turn)).flatten }

/-- C1: for every session state, when the transcript already holds at least 8
asker turns (so the computed question index exceeds the bound of 8),
ask_next_question returns null with zero Model Gateway calls; when the index
is within the bound it performs exactly one Model Gateway call. -/
theorem c1_turn_bound_gates_gateway_calls (gw : Gateway) (st : SessionState)
    (ans : Option String) :
    (8 ≤ asker_count st.conversation_history →
      (ask_next_question gw st ans).result = Except.ok none ∧
      (ask_next_question gw st ans).gateway_calls = 0) ∧
    (asker_count st.conversation_history < 8 →
      (ask_next_question gw st ans).gateway_calls = 1) := by
  constructor
  · intro h8
    exact ⟨(ask_over_bound gw st ans h8).1, (ask_over_bound gw st ans h8).2.1⟩
  · intro h8
    exact ask_under_bound_calls gw st ans h8

/-- C1 witness: at a transcript with 8 asker turns the call returns null with
zero gateway calls; at an empty transcript it performs one gateway call. -/
theorem c1_witness :
    ((ask_next_question stub_gateway full_session none).result = Except.ok none ∧
     (ask_next_question stub_gateway full_session none).gateway_calls = 0) ∧
    (ask_next_question stub_gateway stub_session none).gateway_calls = 1 :=
  ⟨(c1_turn_bound_gates_gateway_calls stub_gateway full_session none).1 (by decide),
   (c1_turn_bound_gates_gateway_calls stub_gateway stub_session none).2 (by decide)⟩

/-- C10: a call made with a non-empty answer when the transcript already
holds at least 8 asker turns still appends the answer as a responder turn,
then returns null with zero gateway calls — so every repeated post-bound
call that supplies an answer grows the transcript by one responder turn. -/
theorem c10_post_bound_answer_still_appended (gw : Gateway) (st : SessionState)
    (ans : String) (hans : ans ≠ "") (hged : 8 ≤ asker_count st.conversation_history) :
    (ask_next_question gw st (some ans)).result = Except.ok none ∧
    (ask_next_question gw st (some ans)).gateway_calls = 0 ∧
    (ask_next_question gw st (some ans)).state.conversation_history
      = st.conversation_history ++ [⟨Role.responder, ans⟩] := by
  have h := ask_over_bound gw st (some ans) hged
  refine ⟨h.1, h.2.1, ?_⟩
  rw [h.2.2]
  simp [append_answer, hans]

/-- C10 witness: a 16-turn completed transcript grows to 17 turns ending in
two adjacent responder turns. -/
theorem c10_witness :
    (ask_next_question stub_gateway full_session (some "more")).result = Except.ok none ∧
    (ask_next_question stub_gateway full_session (some "more")).gateway_calls = 0 ∧
    (ask_next_question stub_gateway full_session (some "more")).state.conversation_history
      = full_session.conversation_history ++ [⟨Role.responder, "more"⟩] :=
  c10_post_bound_answer_still_appended stub_gateway full_session "more"
    (by decide) (by decide)

/-- C9: a Model Gateway failure raised during a question or extraction call
propagates to the caller as the very same error, with exactly one gateway
call (no internal retry), and the decode-failure recovery of the extractor
does not apply to it (no fallback result, nothing logged). -/
theorem c9_gateway_failures_propagate (e : GwError) (st : SessionState)
    (ans : Option String) (hlt : asker_count st.conversation_history < 8) :
    ((ask_next_question (failing_gateway e) st ans).result = Except.error e ∧
     (ask_next_question (failing_gateway e) st ans).gateway_calls = 1) ∧
    ((extract_requirements (failing_gateway e) st).result = Except.error e ∧
     (extract_requirements (failing_gateway e) st).logged_raw = none ∧
     (extract_requirements (failing_gateway e) st).gateway_calls = 1) := by
  refine ⟨ask_under_bound_error e st ans hlt, ?_, ?_, ?_⟩ <;>
    simp [extract_requirements, failing_gateway]

/-- C9 witness: a rate-limit failure at the empty session propagates from
both the question call and the extraction call. -/
theorem c9_witness :
    ((ask_next_question (failing_gateway GwError.rate_limit_error) stub_session none).result
        = Except.error GwError.rate_limit_error ∧
     (ask_next_question (failing_gateway GwError.rate_limit_error) stub_session none).gateway_calls = 1) ∧
    ((extract_requirements (failing_gateway GwError.rate_limit_error) stub_session).result
        = Except.error GwError.rate_limit_error ∧
     (extract_requirements (failing_gateway GwError.rate_limit_error) stub_session).logged_raw = none ∧
     (extract_requirements (failing_gateway GwError.rate_limit_error) stub_session).gateway_calls = 1) :=
  c9_gateway_failures_propagate GwError.rate_limit_error stub_session none (by decide)

/-- C3: for every gateway reply whose text fails the tolerant decode,
extract_requirements does not fail, returns exactly the all-empty three-key
structure, and logs the offending (fence-stripped) text. -/
theorem c3_decode_failure_yields_fallback (st : SessionState) (reply : String)
    (hfail : jsonLoads (stripCodeFence (strTrim reply)) = none) :
    (extract_requirements (const_gateway reply) st).result = Except.ok fallback_requirements ∧
    (extract_requirements (const_gateway reply) st).logged_raw
      = some (stripCodeFence (strTrim reply)) ∧
    (extract_requirements (const_gateway reply) st).gateway_calls = 1 := by
  refine ⟨?_, ?_, ?_⟩ <;> simp [extract_requirements, const_gateway, hfail]

/-- C3 witness: the unparsable reply "I cannot comply" yields the fallback. -/
theorem c3_witness :
    (extract_requirements (const_gateway "I cannot comply") stub_session).result
      = Except.ok fallback_requirements ∧
    (extract_requirements (const_gateway "I cannot comply") stub_session).logged_raw
      = some (stripCodeFence (strTrim "I cannot comply")) ∧
    (extract_requirements (const_gateway "I cannot comply") stub_session).gateway_calls = 1 :=
  c3_decode_failure_yields_fallback stub_session "I cannot comply" (by rfl)

/-- C4: on the fenced reply, extract_requirements trims, takes the first
fenced segment, strips the "json" language tag and strictly parses it,
returning the one-functional-requirement structure. -/
theorem c4_fenced_reply_parsed :
    (extract_requirements
      (const_gateway "```json\n\x7b\"functional\":[\"a\"],\"non_functional\":[],\"constraints\":[]\x7d\n```")
      stub_session).result
      = Except.ok (JValue.obj
          [("functional", JValue.arr [JValue.str "a"]),
           ("non_functional", JValue.arr []),
           ("constraints", JValue.arr [])]) := rfl

/- Key presence in a decoded object. -/
def jhas_key (v : JValue) (k : String) : Bool :=
  match v with
  | JValue.obj fs => fs.any (fun kv => kv.1 == k)
  | _ => false

/-- C5 counterexample: the gateway reply consisting of an empty JSON object
parses successfully, and extract_requirements returns it as-is — a result
omitting all three category keys, refuting the claim that every possible
reply yields a mapping containing functional, non_functional and
constraints. -/
theorem c5_counterexample_empty_object_reply :
    (extract_requirements (const_gateway "\x7b\x7d") stub_session).result
      = Except.ok (JValue.obj []) ∧
    jhas_key (JValue.obj []) "functional" = false ∧
    jhas_key (JValue.obj []) "non_functional" = false ∧
    jhas_key (JValue.obj []) "constraints" = false :=
  ⟨rfl, rfl, rfl, rfl⟩

/-- C5 (amended): when the tolerant decode fails, the result is the fallback
structure, which always carries all three category keys mapped to empty
lists; when the decode succeeds, the parsed value is returned as-is and may
omit keys. -/
theorem c5_fallback_carries_all_keys (st : SessionState) (reply : String) :
    (jsonLoads (stripCodeFence (strTrim reply)) = none →
      (extract_requirements (const_gateway reply) st).result = Except.ok fallback_requirements ∧
      jhas_key fallback_requirements "functional" = true ∧
      jhas_key fallback_requirements "non_functional" = true ∧
      jhas_key fallback_requirements "constraints" = true ∧
      jget fallback_requirements "functional" = some (JValue.arr []) ∧
      jget fallback_requirements "non_functional" = some (JValue.arr []) ∧
      jget fallback_requirements "constraints" = some (JValue.arr [])) ∧
    (∀ v : JValue, jsonLoads (stripCodeFence (strTrim reply)) = some v →
      (extract_requirements (const_gateway reply) st).result = Except.ok v) := by
  constructor
  · intro hfail
    refine ⟨?_, rfl, rfl, rfl, rfl, rfl, rfl⟩
    simp [extract_requirements, const_gateway, hfail]
  · intro v hv
    simp [extract_requirements, const_gateway, hv]

/-- C5 witness: an unparsable reply yields the fully keyed fallback, and a
parsable non-object reply is returned as parsed. -/
theorem c5_witness :
    ((extract_requirements (const_gateway "not json at all") stub_session).result
        = Except.ok fallback_requirements ∧
      jhas_key fallback_requirements "functional" = true ∧
      jhas_key fallback_requirements "non_functional" = true ∧
      jhas_key fallback_requirements "constraints" = true ∧
      jget fallback_requirements "functional" = some (JValue.arr []) ∧
      jget fallback_requirements "non_functional" = some (JValue.arr []) ∧
      jget fallback_requirements "constraints" = some (JValue.arr [])) ∧
    (extract_requirements (const_gateway "[1]") stub_session).result
      = Except.ok (JValue.arr [JValue.num "1"]) :=
  ⟨(c5_fallback_carries_all_keys stub_session "not json at all").1 (by rfl),
   (c5_fallback_carries_all_keys stub_session "[1]").2 (JValue.arr [JValue.num "1"]) (by rfl)⟩

/- Concrete store stubs shared by the generation witnesses. -/

def req1 : Requirement := ⟨"functional", "store notes"⟩

def proj_with_reqs : Project := ⟨1, "p1", "d1", [req1], []⟩

def proj_no_reqs : Project := ⟨2, "p2", "d2", [], []⟩

def stub_db : Database := ⟨[proj_with_reqs, proj_no_reqs]⟩

/- Helper lemmas about the generators. -/

lemma generate_design_no_reqs (t : DesignType) (gw : Gateway) (project_id : Nat)
    (db : Database) (p : Project) (hp : get_project db project_id = some p)
    (hreq : p.requirements = []) :
    generate_design t gw project_id db
      = ⟨Except.error (GenError.no_requirements (no_requirements_message t)), db, 0⟩ := by
  unfold generate_design
  rw [hp]
  simp [hreq]

lemma generate_design_calls_one (t : DesignType) (gw : Gateway) (project_id : Nat)
    (db : Database) (p : Project) (hp : get_project db project_id = some p)
    (hreq : p.requirements ≠ []) :
    (generate_design t gw project_id db).gateway_calls = 1 := by
  unfold generate_design
  rw [hp]
  have hne : p.requirements.isEmpty = false := by simp [List.isEmpty_iff, hreq]
  simp only [hne, Bool.false_eq_true, if_false]
  split <;> rfl

lemma generate_user_stories_no_reqs (gw : Gateway) (project_id : Nat)
    (db : Database) (p : Project) (hp : get_project db project_id = some p)
    (hreq : p.requirements = []) :
    generate_user_stories gw project_id db
      = ⟨Except.error (GenError.no_requirements
          "Cannot generate user stories: No requirements found"), none, db, 0⟩ := by
  unfold generate_user_stories
  rw [hp]
  simp [hreq]

lemma generate_user_stories_calls_one (gw : Gateway) (project_id : Nat)
    (db : Database) (p : Project) (hp : get_project db project_id = some p)
    (hreq : p.requirements ≠ []) :
    (generate_user_stories gw project_id db).gateway_calls = 1 := by
  unfold generate_user_stories
  rw [hp]
  have hne : p.requirements.isEmpty = false := by simp [List.isEmpty_iff, hreq]
  simp only [hne, Bool.false_eq_true, if_false]
  split
  · rfl
  · split
    · rfl
    · split
      · rfl
      · rfl

/-- C6: for every artifact type, generation against a project with zero
requirement records fails with the per-type precondition error and issues
zero Model Gateway calls; with at least one requirement record it issues
exactly one Model Gateway call. -/
theorem c6_generation_requires_requirements (gw : Gateway) (project_id : Nat)
    (db : Database) (p : Project) (hp : get_project db project_id = some p) :
    (∀ t : DesignType,
      (p.requirements = [] →
        (generate_design t gw project_id db).result
          = Except.error (GenError.no_requirements (no_requirements_message t)) ∧
        (generate_design t gw project_id db).gateway_calls = 0) ∧
      (p.requirements ≠ [] →
        (generate_design t gw project_id db).gateway_calls = 1)) ∧
    ((p.requirements = [] →
        (generate_user_stories gw project_id db).result
          = Except.error (GenError.no_requirements
              "Cannot generate user stories: No requirements found") ∧
        (generate_user_stories gw project_id db).gateway_calls = 0) ∧
      (p.requirements ≠ [] →
        (generate_user_stories gw project_id db).gateway_calls = 1)) := by
  refine ⟨fun t => ⟨fun hreq => ?_, fun hreq => generate_design_calls_one t gw project_id db p hp hreq⟩,
    ⟨fun hreq => ?_, fun hreq => generate_user_stories_calls_one gw project_id db p hp hreq⟩⟩
  · rw [generate_design_no_reqs t gw project_id db p hp hreq]
    exact ⟨rfl, rfl⟩
  · rw [generate_user_stories_no_reqs gw project_id db p hp hreq]
    exact ⟨rfl, rfl⟩

/-- C6 witness: on the project without requirements both generators fail with
the precondition error and zero calls; on the project with one requirement
both issue exactly one call. -/
theorem c6_witness :
    ((generate_design DesignType.architecture stub_gateway 2 stub_db).result
        = Except.error (GenError.no_requirements (no_requirements_message DesignType.architecture)) ∧
     (generate_design DesignType.architecture stub_gateway 2 stub_db).gateway_calls = 0) ∧
    (generate_design DesignType.architecture stub_gateway 1 stub_db).gateway_calls = 1 ∧
    ((generate_user_stories stub_gateway 2 stub_db).result
        = Except.error (GenError.no_requirements
            "Cannot generate user stories: No requirements found") ∧
     (generate_user_stories stub_gateway 2 stub_db).gateway_calls = 0) ∧
    (generate_user_stories stub_gateway 1 stub_db).gateway_calls = 1 :=
  ⟨((c6_generation_requires_requirements stub_gateway 2 stub_db proj_no_reqs (by decide)).1
      DesignType.architecture).1 (by decide),
   ((c6_generation_requires_requirements stub_gateway 1 stub_db proj_with_reqs (by decide)).1
      DesignType.architecture).2 (by decide),
   ((c6_generation_requires_requirements stub_gateway 2 stub_db proj_no_reqs (by decide)).2).1 (by decide),
   ((c6_generation_requires_requirements stub_gateway 1 stub_db proj_with_reqs (by decide)).2).2 (by decide)⟩

/- Story well-formedness: an object carrying every field the extraction
instruction requires, with acceptance_criteria a JSON array. -/
def required_story_fields : List String :=
  ["id", "title", "user_story", "description", "priority", "story_points",
   "epic", "acceptance_criteria", "notes"]

def well_formed_story (s : JValue) : Bool :=
  required_story_fields.all (fun k => jhas_key s k) &&
  (match jget s "acceptance_criteria" with
   | some (JValue.arr _) => true
   | _ => false)

lemma format_story_lines_ok (s : JValue) (h : well_formed_story s = true) :
    ∃ ls, format_story_lines s = Except.ok ls := by
  cases s with
  | obj fs =>
    cases hcrit : jget (JValue.obj fs) "acceptance_criteria" with
    | none => simp [well_formed_story, hcrit] at h
    | some v =>
      cases v with
      | arr xs =>
        cases hres : format_story_lines (JValue.obj fs) with
        | ok ls => exact ⟨ls, rfl⟩
        | error e =>
          unfold format_story_lines at hres
          rw [hcrit] at hres
          simp [py_iter_elems] at hres
      | null => simp [well_formed_story, hcrit] at h
      | bool b => simp [well_formed_story, hcrit] at h
      | num l => simp [well_formed_story, hcrit] at h
      | str t => simp [well_formed_story, hcrit] at h
      | obj fs2 => simp [well_formed_story, hcrit] at h
  | null => simp [well_formed_story, jhas_key, required_story_fields] at h
  | bool b => simp [well_formed_story, jhas_key, required_story_fields] at h
  | num l => simp [well_formed_story, jhas_key, required_story_fields] at h
  | str t => simp [well_formed_story, jhas_key, required_story_fields] at h
  | arr xs => simp [well_formed_story, jhas_key, required_story_fields] at h

lemma story_blocks_ok (stories : List JValue)
    (h : stories.all well_formed_story = true) :
    ∃ blocks, story_blocks stories = Except.ok blocks := by
  induction stories with
  | nil => exact ⟨[], rfl⟩
  | cons s ss ih =>
    rw [List.all_cons, Bool.and_eq_true] at h
    obtain ⟨ls, hls⟩ := format_story_lines_ok s h.1
    obtain ⟨blocks, hbs⟩ := ih h.2
    exact ⟨ls :: blocks, by simp [story_blocks, hls, hbs]⟩

lemma format_stories_display_ok (stories : List JValue)
    (h : stories.all well_formed_story = true) :
    ∃ formatted, format_stories_for_display (JValue.arr stories) = Except.ok formatted := by
  obtain ⟨blocks, hbs⟩ := story_blocks_ok stories h
  exact ⟨String.intercalate "\n" blocks.flatten,
    by simp [format_stories_for_display, py_iter_elems, hbs]⟩

lemma generate_user_stories_success (project_id : Nat) (db : Database) (p : Project)
    (hp : get_project db project_id = some p) (hreq : p.requirements ≠ []) (reply : String)
    (v : JValue) (hv : jsonLoads (stripCodeFence (strTrim reply)) = some v)
    (formatted : String) (hf : format_stories_for_display v = Except.ok formatted) :
    generate_user_stories (const_gateway reply) project_id db
      = ⟨Except.ok v, none, add_design_artifact db project_id "user_stories" formatted, 1⟩ := by
  unfold generate_user_stories
  rw [hp]
  have hne : p.requirements.isEmpty = false := by simp [List.isEmpty_iff, hreq]
  simp [const_gateway, hne, hv, hf]

lemma generate_user_stories_decode_failure (project_id : Nat) (db : Database) (p : Project)
    (hp : get_project db project_id = some p) (hreq : p.requirements ≠ []) (reply : String)
    (hv : jsonLoads (stripCodeFence (strTrim reply)) = none) :
    generate_user_stories (const_gateway reply) project_id db
      = ⟨Except.ok (JValue.arr []), some (stripCodeFence (strTrim reply)), db, 1⟩ := by
  unfold generate_user_stories
  rw [hp]
  have hne : p.requirements.isEmpty = false := by simp [List.isEmpty_iff, hreq]
  simp [const_gateway, hne, hv]

/-- C7 counterexample: the reply is valid JSON but not an array of story
objects; generate_user_stories raises (AttributeError inside the formatting
step) instead of returning an empty list, refuting the claim for arbitrary
malformed output. -/
theorem c7_counterexample_malformed_reply_raises :
    (generate_user_stories (const_gateway "\x7b\"a\":1\x7d") 1 stub_db).result
      = Except.error GenError.attribute_error := rfl

/-- C7 (amended): a reply decoding to a JSON array of well-formed story
objects is returned as that list, fields intact; a reply that fails JSON
decoding yields the empty list without failing, logging the raw text; but a
reply decoding to JSON that is not an array of story objects raises instead
(see the counterexample). -/
theorem c7_story_decode_outcomes (project_id : Nat) (db : Database) (p : Project)
    (hp : get_project db project_id = some p) (hreq : p.requirements ≠ []) (reply : String) :
    (∀ stories : List JValue,
      jsonLoads (stripCodeFence (strTrim reply)) = some (JValue.arr stories) →
      stories.all well_formed_story = true →
      (generate_user_stories (const_gateway reply) project_id db).result
        = Except.ok (JValue.arr stories)) ∧
    (jsonLoads (stripCodeFence (strTrim reply)) = none →
      (generate_user_stories (const_gateway reply) project_id db).result
        = Except.ok (JValue.arr []) ∧
      (generate_user_stories (const_gateway reply) project_id db).logged_raw
        = some (stripCodeFence (strTrim reply)) ∧
      (generate_user_stories (const_gateway reply) project_id db).gateway_calls = 1) := by
  constructor
  · intro stories hjson hwf
    obtain ⟨formatted, hf⟩ := format_stories_display_ok stories hwf
    rw [generate_user_stories_success project_id db p hp hreq reply _ hjson formatted hf]
  · intro hnone
    rw [generate_user_stories_decode_failure project_id db p hp hreq reply hnone]
    exact ⟨rfl, rfl, rfl⟩

def c7_story1 : JValue :=
  JValue.obj
    [("id", JValue.str "US-001"), ("title", JValue.str "t1"),
     ("user_story", JValue.str "u1"), ("description", JValue.str "d1"),
     ("priority", JValue.str "High"), ("story_points", JValue.str "3"),
     ("epic", JValue.str "e1"), ("acceptance_criteria", JValue.arr [JValue.str "c1"]),
     ("notes", JValue.str "n1")]

def c7_story2 : JValue :=
  JValue.obj
    [("id", JValue.str "US-002"), ("title", JValue.str "t2"),
     ("user_story", JValue.str "u2"), ("description", JValue.str "d2"),
     ("priority", JValue.str "Medium"), ("story_points", JValue.str "5"),
     ("epic", JValue.str "e2"), ("acceptance_criteria", JValue.arr [JValue.str "c2"]),
     ("notes", JValue.str "n2")]

def c7_story3 : JValue :=
  JValue.obj
    [("id", JValue.str "US-003"), ("title", JValue.str "t3"),
     ("user_story", JValue.str "u3"), ("description", JValue.str "d3"),
     ("priority", JValue.str "Low"), ("story_points", JValue.str "8"),
     ("epic", JValue.str "e3"), ("acceptance_criteria", JValue.arr [JValue.str "c3"]),
     ("notes", JValue.str "n3")]

def c7_stories : List JValue := [c7_story1, c7_story2, c7_story3]

def c7_reply : String :=
  "[\x7b\"id\":\"US-001\",\"title\":\"t1\",\"user_story\":\"u1\",\"description\":\"d1\",\"priority\":\"High\",\"story_points\":\"3\",\"epic\":\"e1\",\"acceptance_criteria\":[\"c1\"],\"notes\":\"n1\"\x7d,"
  ++ "\x7b\"id\":\"US-002\",\"title\":\"t2\",\"user_story\":\"u2\",\"description\":\"d2\",\"priority\":\"Medium\",\"story_points\":\"5\",\"epic\":\"e2\",\"acceptance_criteria\":[\"c2\"],\"notes\":\"n2\"\x7d,"
  ++ "\x7b\"id\":\"US-003\",\"title\":\"t3\",\"user_story\":\"u3\",\"description\":\"d3\",\"priority\":\"Low\",\"story_points\":\"8\",\"epic\":\"e3\",\"acceptance_criteria\":[\"c3\"],\"notes\":\"n3\"\x7d]"

/-- C7 witness: a reply holding three well-formed story objects yields
exactly those three stories; an unparsable reply yields the empty list with
the raw text logged. -/
theorem c7_witness :
    ((generate_user_stories (const_gateway c7_reply) 1 stub_db).result
        = Except.ok (JValue.arr c7_stories) ∧
      c7_stories.length = 3 ∧
      c7_stories.all well_formed_story = true) ∧
    ((generate_user_stories (const_gateway "no stories") 1 stub_db).result
        = Except.ok (JValue.arr []) ∧
     (generate_user_stories (const_gateway "no stories") 1 stub_db).logged_raw
        = some (stripCodeFence (strTrim "no stories")) ∧
     (generate_user_stories (const_gateway "no stories") 1 stub_db).gateway_calls = 1) :=
  ⟨⟨(c7_story_decode_outcomes 1 stub_db proj_with_reqs (by decide) (by decide) c7_reply).1
      c7_stories (by rfl) (by rfl), rfl, by rfl⟩,
   (c7_story_decode_outcomes 1 stub_db proj_with_reqs (by decide) (by decide) "no stories").2
      (by rfl)⟩

/-- C8 counterexample: a successful generation call changes the record store
by itself — the store after the call differs from the store before it,
refuting the claim that generate does not write to the store. -/
theorem c8_counterexample_store_changes :
    (generate_design DesignType.complete_system_design (const_gateway "DESIGN DOC") 1 stub_db).db
      ≠ stub_db := by decide

/-- C8 (amended): generate returns the raw generated text, but it does
itself persist: after a successful call the store equals the prior store
with exactly one new artifact appended to the project — the raw text for the
design types, the formatted stories for user stories. -/
theorem c8_generate_persists_one_artifact (project_id : Nat) (db : Database) (p : Project)
    (hp : get_project db project_id = some p) (hreq : p.requirements ≠ []) (reply : String) :
    (∀ t : DesignType,
      (generate_design t (const_gateway reply) project_id db).result = Except.ok reply ∧
      (generate_design t (const_gateway reply) project_id db).db
        = add_design_artifact db project_id (artifact_type_tag t) reply) ∧
    (∀ stories : List JValue,
      jsonLoads (stripCodeFence (strTrim reply)) = some (JValue.arr stories) →
      stories.all well_formed_story = true →
      ∃ formatted,
        format_stories_for_display (JValue.arr stories) = Except.ok formatted ∧
        (generate_user_stories (const_gateway reply) project_id db).db
          = add_design_artifact db project_id "user_stories" formatted) := by
  have hne : p.requirements.isEmpty = false := by simp [List.isEmpty_iff, hreq]
  constructor
  · intro t
    constructor
    · unfold generate_design
      rw [hp]
      simp [hne, const_gateway]
    · unfold generate_design
      rw [hp]
      simp [hne, const_gateway]
  · intro stories hjson hwf
    obtain ⟨formatted, hf⟩ := format_stories_display_ok stories hwf
    refine ⟨formatted, hf, ?_⟩
    rw [generate_user_stories_success project_id db p hp hreq reply _ hjson formatted hf]

/-- C8 witness: a concrete design generation returns the raw text and leaves
the store extended by exactly that one artifact; a concrete user-story
generation extends the store by the formatted stories artifact. -/
theorem c8_witness :
    ((generate_design DesignType.data_model (const_gateway "BODY") 1 stub_db).result
        = Except.ok "BODY" ∧
     (generate_design DesignType.data_model (const_gateway "BODY") 1 stub_db).db
        = add_design_artifact stub_db 1 (artifact_type_tag DesignType.data_model) "BODY") ∧
    (∃ formatted,
      format_stories_for_display (JValue.arr c7_stories) = Except.ok formatted ∧
      (generate_user_stories (const_gateway c7_reply) 1 stub_db).db
        = add_design_artifact stub_db 1 "user_stories" formatted) :=
  ⟨(c8_generate_persists_one_artifact 1 stub_db proj_with_reqs (by decide) (by decide) "BODY").1
      DesignType.data_model,
   (c8_generate_persists_one_artifact 1 stub_db proj_with_reqs (by decide) (by decide) c7_reply).2
      c7_stories (by rfl) (by rfl)⟩

/- Helper lemmas for driving a full session. -/

lemma asker_count_append_qa (h : List Turn) (a q : String) :
    asker_count (h ++ [⟨Role.responder, a⟩, ⟨Role.asker, q⟩]) = asker_count h + 1 := by
  simp [asker_count, List.filter_append]

lemma ask_step_some (g : String → List Turn → Nat → String) (st : SessionState)
    (a : String) (ha : a ≠ "") (hc : asker_count st.conversation_history < 8) :
    ∃ q, (ask_next_question (total_gateway g) st (some a)).state
      = { st with conversation_history :=
            st.conversation_history ++ [⟨Role.responder, a⟩, ⟨Role.asker, q⟩] } := by
  rw [ask_next_question_under (total_gateway g) st (some a) hc]
  refine ⟨g st.system_prompt (append_answer st.conversation_history (some a)
      ++ [⟨Role.responder, question_prompt st (asker_count st.conversation_history + 1)⟩]) 500, ?_⟩
  simp [total_gateway, append_answer, ha]

lemma ask_step_none_start (g : String → List Turn → Nat → String) (st : SessionState)
    (hc : asker_count st.conversation_history < 8) :
    ∃ q, (ask_next_question (total_gateway g) st none).state
      = { st with conversation_history := st.conversation_history ++ [⟨Role.asker, q⟩] } := by
  rw [ask_next_question_under (total_gateway g) st none hc]
  refine ⟨g st.system_prompt (append_answer st.conversation_history none
      ++ [⟨Role.responder, question_prompt st (asker_count st.conversation_history + 1)⟩]) 500, ?_⟩
  simp [total_gateway, append_answer]

lemma run_calls_append (gw : Gateway) (st : SessionState) (xs ys : List (Option String)) :
    run_calls gw st (xs ++ ys) = run_calls gw (run_calls gw st xs) ys := by
  simp [run_calls, List.foldl_append]

lemma run_middle (g : String → List Turn → Nat → String) :
    ∀ (answers : List String) (st : SessionState),
      (∀ a ∈ answers, a ≠ "") →
      asker_count st.conversation_history + answers.length ≤ 8 →
      (run_calls (total_gateway g) st (answers.map some)).conversation_history.map Turn.role
          = st.conversation_history.map Turn.role
            ++ (List.replicate answers.length ([Role.responder, Role.asker])).flatten ∧
      asker_count (run_calls (total_gateway g) st (answers.map some)).conversation_history
          = asker_count st.conversation_history + answers.length := by
  intro answers
  induction answers with
  | nil =>
    intro st hne hb
    simp [run_calls]
  | cons a as ih =>
    intro st hne hb
    have ha : a ≠ "" := hne a (List.mem_cons_self a as)
    have hc : asker_count st.conversation_history < 8 := by
      simp only [List.length_cons] at hb; omega
    obtain ⟨q, hq⟩ := ask_step_some g st a ha hc
    have hstep : run_calls (total_gateway g) st ((a :: as).map some)
        = run_calls (total_gateway g)
            ((ask_next_question (total_gateway g) st (some a)).state) (as.map some) := rfl
    rw [hstep, hq]
    have hcount := asker_count_append_qa st.conversation_history a q
    have hne2 : ∀ x ∈ as, x ≠ "" := fun x hx => hne x (List.mem_cons_of_mem a hx)
    have hb2 : asker_count (st.conversation_history ++ [⟨Role.responder, a⟩, ⟨Role.asker, q⟩])
        + as.length ≤ 8 := by
      rw [hcount]; simp only [List.length_cons] at hb; omega
    obtain ⟨hroles, hcnt⟩ := ih
      { st with conversation_history :=
          st.conversation_history ++ [⟨Role.responder, a⟩, ⟨Role.asker, q⟩] } hne2 hb2
    constructor
    · rw [hroles]
      simp [List.replicate_succ, List.map_append]
    · rw [hcnt]
      simp only [List.length_cons]
      rw [hcount]
      omega

/-- C2: a session started with start_session and driven by the first
question call, seven answered question calls, and a final answer submission
(nine calls, eight of which receive a question) yields a transcript of
exactly 16 turns — 8 asker and 8 responder in strict alternation beginning
with an asker turn — and every call only appends to the transcript, never
reordering or mutating existing turns. -/
theorem c2_completed_session_transcript
    (g : String → List Turn → Nat → String) (name description : String)
    (a1 a2 a3 a4 a5 a6 a7 a8 : String)
    (h1 : a1 ≠ "") (h2 : a2 ≠ "") (h3 : a3 ≠ "") (h4 : a4 ≠ "")
    (h5 : a5 ≠ "") (h6 : a6 ≠ "") (h7 : a7 ≠ "") (h8 : a8 ≠ "") :
    ((run_calls (total_gateway g) (start_session name description)
        [none, some a1, some a2, some a3, some a4, some a5, some a6, some a7, some a8]).conversation_history.map Turn.role
      = (List.replicate 8 ([Role.asker, Role.responder])).flatten) ∧
    (∀ (gw : Gateway) (st : SessionState) (ans : Option String),
      ∃ tail, (ask_next_question gw st ans).state.conversation_history
        = st.conversation_history ++ tail) := by
  constructor
  · set st0 := start_session name description with hst0
    have h0 : asker_count st0.conversation_history < 8 := by
      simp [hst0, start_session, asker_count]
    obtain ⟨q1, hq1⟩ := ask_step_none_start g st0 h0
    have hsplit : ([none, some a1, some a2, some a3, some a4, some a5, some a6,
        some a7, some a8] : List (Option String))
        = ([none] ++ [a1, a2, a3, a4, a5, a6, a7].map some) ++ [some a8] := rfl
    rw [hsplit, run_calls_append, run_calls_append]
    have hfirst : run_calls (total_gateway g) st0 [none]
        = (ask_next_question (total_gateway g) st0 none).state := by
      simp only [run_calls, List.foldl_cons, List.foldl_nil]
    rw [hfirst, hq1]
    set st1 : SessionState :=
      { st0 with conversation_history := st0.conversation_history ++ [⟨Role.asker, q1⟩] }
      with hst1
    have hcnt1 : asker_count st1.conversation_history = 1 := by
      rw [hst1, hst0]
      simp [start_session, asker_count]
    have hne7 : ∀ x ∈ [a1, a2, a3, a4, a5, a6, a7], x ≠ "" := by
      intro x hx
      simp only [List.mem_cons, List.not_mem_nil, or_false] at hx
      rcases hx with rfl | rfl | rfl | rfl | rfl | rfl | rfl <;> assumption
    obtain ⟨hroles7, hcnt7⟩ := run_middle g [a1, a2, a3, a4, a5, a6, a7] st1 hne7
      (by rw [hcnt1]; simp)
    set st8 := run_calls (total_gateway g) st1 ([a1, a2, a3, a4, a5, a6, a7].map some)
      with hst8
    have hcnt8 : asker_count st8.conversation_history = 8 := by
      rw [hst8, hcnt7, hcnt1]
      simp
    have hfin := ask_over_bound (total_gateway g) st8 (some a8) (by rw [hcnt8])
    have hlast : run_calls (total_gateway g) st8 [some a8]
        = (ask_next_question (total_gateway g) st8 (some a8)).state := by
      simp only [run_calls, List.foldl_cons, List.foldl_nil]
    rw [hlast, hfin.2.2]
    show (append_answer st8.conversation_history (some a8)).map Turn.role = _
    have happ : append_answer st8.conversation_history (some a8)
        = st8.conversation_history ++ [⟨Role.responder, a8⟩] := by
      simp [append_answer, h8]
    rw [happ, List.map_append]
    have hmap8 : st8.conversation_history.map Turn.role
        = st1.conversation_history.map Turn.role
          ++ (List.replicate 7 ([Role.responder, Role.asker])).flatten := by
      rw [hst8]
      exact hroles7
    have hmap1 : st1.conversation_history.map Turn.role = [Role.asker] := by
      rw [hst1, hst0]
      simp [start_session]
    rw [hmap8, hmap1]
    simp only [List.map_cons, List.map_nil]
    decide
  · exact fun gw st ans => ask_history_extends gw st ans

/-- C2 witness: a concrete full session with a constant stub gateway and
eight non-empty answers produces the 16-turn alternating transcript. -/
theorem c2_witness :
    ((run_calls (total_gateway (fun _ _ _ => "Q")) (start_session "p" "d")
        [none, some "x1", some "x2", some "x3", some "x4", some "x5", some "x6",
         some "x7", some "x8"]).conversation_history.map Turn.role
      = (List.replicate 8 ([Role.asker, Role.responder])).flatten) ∧
    (∀ (gw : Gateway) (st : SessionState) (ans : Option String),
      ∃ tail, (ask_next_question gw st ans).state.conversation_history
        = st.conversation_history ++ tail) :=
  c2_completed_session_transcript (fun _ _ _ => "Q") "p" "d"
    "x1" "x2" "x3" "x4" "x5" "x6" "x7" "x8"
    (by decide) (by decide) (by decide) (by decide)
    (by decide) (by decide) (by decide) (by decide)
